import Mathlib

/-!
Verification of the Aero-Log ingestion-and-synchronization core.

The development shallowly embeds the logic of `src/App.tsx` (the Collection
Controller, Ingestion Pipeline, Local Store access and Remote Sync Engine)
and the data model of `src/types.ts`.  External collaborators are modelled
as explicit parameters or abstract codecs:

* the recognition service (`extractDataFromImage`) is an opaque fallible
  function passed as a parameter `extract : α → Except String FlightReport`;
* the remote store transport (`fetchReportsFromServer` /
  `saveReportsToServer`) is represented by an explicit fetch result and by
  the boolean "a debounced push was scheduled" that each operation returns;
* the browser `localStorage` is a pair of optional keyed entries carried in
  the application state;
* the JS `JSON.stringify` / `JSON.parse` builtins are modelled by the
  `StoredString` codec below, which captures exactly their contract used
  here: stringify is injective on report arrays and parse inverts it, while
  any other (corrupt) string makes parse fail.
-/

/-- One entry of a report's `faults` list (`src/types.ts`, `FaultItem`). -/
structure FaultItem where
  time : String
  phase : String
  ata : String
  description : String
deriving DecidableEq, Repr

/-- One entry of a report's `failures` list (`src/types.ts`, `FailureItem`). -/
structure FailureItem where
  time : String
  source : String
  identifier : String
  description : String
deriving DecidableEq, Repr

/-- One flight report (`src/types.ts`, `FlightReport`). -/
structure FlightReport where
  id : String
  aircraftId : String
  date : String
  flightNumber : String
  cityPair : String
  faults : List FaultItem
  failures : List FailureItem
  rawText : Option String
  timestamp : Nat
deriving DecidableEq, Repr

/-- Sync status values of `App.tsx` line 25. -/
inductive SyncStatus where
  | idle
  | syncing
  | synced
  | error
deriving DecidableEq, Repr

/-- Model of a string held in `localStorage` under the collection key.
`json rs` is the result of `JSON.stringify rs`; `corrupt raw` is any other
string, on which `JSON.parse` throws. -/
inductive StoredString where
  | json (rs : List FlightReport)
  | corrupt (raw : String)
deriving DecidableEq, Repr

/-- Model of `JSON.parse` applied to a stored collection string: inverts
`JSON.stringify` and fails on anything else. -/
def jsonParse : StoredString → Except String (List FlightReport)
  | .json rs => .ok rs
  | .corrupt _ => .error "parse error"

/-- The ingestion loop of `handleFileSelect` (`App.tsx` lines 109-137):
documents are processed strictly one at a time in input order; a success
prepends the extracted report to the collection, a failure bumps the error
count and the loop continues.  Returns the final collection, the success
count and the error count. -/
def ingestBatch {α : Type} (extract : α → Except String FlightReport) :
    List α → List FlightReport → List FlightReport × Nat × Nat
  | [], reports => (reports, 0, 0)
  | f :: rest, reports =>
    match extract f with
    | .ok r =>
      let out := ingestBatch extract rest (r :: reports)
      (out.1, out.2.1 + 1, out.2.2)
    | .error _ =>
      let out := ingestBatch extract rest reports
      (out.1, out.2.1, out.2.2 + 1)

/-- The same loop instrumented with the list of documents handed to the
Extraction Adapter, in invocation order (`extractDataFromImage` is called
once per iteration, `App.tsx` line 121). -/
def ingestBatchLog {α : Type} (extract : α → Except String FlightReport) :
    List α → List FlightReport → (List FlightReport × Nat × Nat) × List α
  | [], reports => ((reports, 0, 0), [])
  | f :: rest, reports =>
    match extract f with
    | .ok r =>
      let out := ingestBatchLog extract rest (r :: reports)
      ((out.1.1, out.1.2.1 + 1, out.1.2.2), f :: out.2)
    | .error _ =>
      let out := ingestBatchLog extract rest reports
      ((out.1.1, out.1.2.1, out.1.2.2 + 1), f :: out.2)

/-- The component state of `App.tsx` that the engine manipulates: the
in-memory collection, the sync configuration and status, the
`isInitialLoad` guard ref, and the two `localStorage` entries
(`aerolog_data_v1` and `aerolog_server_url`). -/
structure AppState where
  reports : List FlightReport
  serverUrl : String
  syncStatus : SyncStatus
  lastSyncTime : Option Nat
  isInitialLoad : Bool
  storage : Option StoredString
  urlStorage : Option String
  errorMsg : Option String
deriving DecidableEq, Repr

/-- The initial component state (`useState` initialisers, `App.tsx` lines
18-30), with both `localStorage` entries absent. -/
def initState : AppState :=
  { reports := []
    serverUrl := ""
    syncStatus := .idle
    lastSyncTime := none
    isInitialLoad := true
    storage := none
    urlStorage := none
    errorMsg := none }

/-- The read path of the initialise effect (`App.tsx` lines 37-44): a
missing entry is treated as the empty collection, a corrupt entry is
caught, logged and also treated as empty. -/
def loadCollection (stored : Option StoredString) : List FlightReport :=
  match stored with
  | none => []
  | some sd =>
    match jsonParse sd with
    | .ok rs => rs
    | .error _ => []

/-- The local-storage write of the auto-save effect (`App.tsx` lines
77-80): the collection is persisted only when it is non-empty, otherwise
the previously stored entry is left as it was. -/
def saveCollection (rs : List FlightReport) (stored : Option StoredString) :
    Option StoredString :=
  if rs.isEmpty then stored else some (.json rs)

/-- The auto-save effect (`App.tsx` lines 76-96), run after a collection
mutation: persist the (non-empty) collection locally, and schedule a
debounced push exactly when a server URL is configured and the
`isInitialLoad` guard is down.  Returns the updated state together with
whether a push was scheduled. -/
def applyAutoSave (s : AppState) : AppState × Bool :=
  ({ s with storage := saveCollection s.reports s.storage },
   !s.serverUrl.isEmpty && !s.isInitialLoad)

/-- The public mutations of the Collection Controller: `addRecord` is the
per-success prepend of `handleFileSelect` (line 122), `remove` is
`handleRemoveReport` (lines 139-141), `clear` is the confirmed branch of
`handleClearAll` (lines 143-149), and `replace` is the confirmed
whole-collection replacement of `handleImportBackup` (line 177). -/
inductive MutationOp where
  | add (r : FlightReport)
  | remove (id : String)
  | clear
  | replace (rs : List FlightReport)
deriving DecidableEq, Repr

/-- Apply one Collection Controller mutation and then the auto-save effect
it triggers.  `clear` erases the stored entry itself (line 146) before the
effect runs on the now-empty collection. -/
def applyOp : MutationOp → AppState → AppState × Bool
  | .add r, s => applyAutoSave { s with reports := r :: s.reports }
  | .remove i, s =>
    applyAutoSave { s with reports := s.reports.filter (fun r => r.id != i) }
  | .clear, s =>
    applyAutoSave { s with reports := [], storage := none, errorMsg := none }
  | .replace rs, s => applyAutoSave { s with reports := rs }

/-- `handleServerFetch` (`App.tsx` lines 55-73): a pull against `url`.
`remote` is the transport outcome — `.error` for a failed fetch, `.ok
none` for an absent body, `.ok (some rs)` for a fetched array.  A
non-empty fetched array wholly replaces the collection and is written to
local storage; the collection change runs the auto-save effect while the
`isInitialLoad` guard still has the value it had when the pull began (the
`finally` clears it only afterwards), so the returned boolean — whether a
push was scheduled by this pull — is down exactly when the guard was up. -/
def handleServerFetch (url : String)
    (remote : Except Unit (Option (List FlightReport))) (now : Nat)
    (s : AppState) : AppState × Bool :=
  if url.isEmpty then (s, false)
  else
    match remote with
    | .ok serverReports =>
      let replaced :=
        match serverReports with
        | some rs => !rs.isEmpty
        | none => false
      let s2 :=
        match serverReports with
        | some rs =>
          if rs.isEmpty then s
          else { s with reports := rs, storage := some (.json rs) }
        | none => s
      ({ s2 with syncStatus := .synced, lastSyncTime := some now,
                 isInitialLoad := false },
       replaced && !s.serverUrl.isEmpty && !s.isInitialLoad)
    | .error _ =>
      ({ s with syncStatus := .error, isInitialLoad := false }, false)

/-- The initialise effect (`App.tsx` lines 33-52): read the stored server
URL and collection, then, when a URL is configured, run the startup pull
with the `isInitialLoad` guard still up; otherwise just drop the guard. -/
def startup (stored : Option StoredString) (storedUrl : Option String)
    (remote : Except Unit (Option (List FlightReport))) (now : Nat) :
    AppState × Bool :=
  let s0 := { initState with storage := stored, urlStorage := storedUrl }
  let s1 :=
    match storedUrl with
    | some u => if u.isEmpty then s0 else { s0 with serverUrl := u }
    | none => s0
  let s2 := { s1 with reports := loadCollection stored }
  match storedUrl with
  | some u =>
    if u.isEmpty then ({ s2 with isInitialLoad := false }, false)
    else handleServerFetch u remote now s2
  | none => ({ s2 with isInitialLoad := false }, false)

/-- `handleUrlChange` (`App.tsx` lines 99-107): store the new URL and, when
it is non-empty, immediately pull from it; clearing the URL returns the
engine to `idle`. -/
def handleUrlChange (newUrl : String)
    (remote : Except Unit (Option (List FlightReport))) (now : Nat)
    (s : AppState) : AppState × Bool :=
  let s1 := { s with serverUrl := newUrl, urlStorage := some newUrl }
  if newUrl.isEmpty then ({ s1 with syncStatus := .idle }, false)
  else handleServerFetch newUrl remote now s1

/-- `handleImportBackup` (`App.tsx` lines 165-185): parse the backup file;
any JSON array replaces the collection wholesale once the operator
confirms; a malformed file aborts with no change. -/
def handleImportBackup (content : StoredString) (confirmed : Bool)
    (s : AppState) : AppState × Bool :=
  match jsonParse content with
  | .ok rs => if confirmed then applyOp (.replace rs) s else (s, false)
  | .error _ => (s, false)

/-- Identifier uniqueness of a collection (spec §3: no two records share
an identifier). -/
def uniqueIds (rs : List FlightReport) : Prop :=
  (rs.map FlightReport.id).Nodup

instance (rs : List FlightReport) : Decidable (uniqueIds rs) :=
  inferInstanceAs (Decidable ((rs.map FlightReport.id).Nodup))

/-- The debounce of the auto-save effect (`App.tsx` lines 83-95), applied
to the times of a burst of collection mutations that each schedule a push:
each mutation's effect cleanup cancels the pending `setTimeout` timer of
the previous mutation when it has not yet fired (the next mutation comes
sooner than 1000 ms later) and schedules a new one 1000 ms out; the list
returned holds the instants at which a push is actually issued. -/
def debouncePushes : List Nat → List Nat
  | [] => []
  | [t] => [t + 1000]
  | t1 :: t2 :: rest =>
    if t2 < t1 + 1000 then debouncePushes (t2 :: rest)
    else (t1 + 1000) :: debouncePushes (t2 :: rest)

/-- A burst of mutation times in which each mutation falls inside the
quiet window of its predecessor. -/
def withinQuiet : List Nat → Bool
  | [] => true
  | [_] => true
  | t1 :: t2 :: rest => decide (t2 < t1 + 1000) && withinQuiet (t2 :: rest)

/-- A concrete report used by witnesses and counterexamples. -/
def sampleReport (n : Nat) : FlightReport :=
  { id := toString n
    aircraftId := "A320"
    date := "2024-01-01"
    flightNumber := "FL100"
    cityPair := "AAA-BBB"
    faults := []
    failures := []
    rawText := none
    timestamp := n }

/-- A concrete extraction adapter for witnesses: even-numbered documents
succeed, odd-numbered ones fail. -/
def sampleExtract (n : Nat) : Except String FlightReport :=
  if n % 2 = 0 then .ok (sampleReport n) else .error "extraction failed"

/-- The state after a startup with empty storage and no configured
endpoint: empty collection, guard down. -/
def postStartup : AppState := (startup none none (.ok none) 0).1

/-- The state after configuring an endpoint on `postStartup` (the pull
finds an absent remote body): endpoint set, guard down, status synced. -/
def sampleSynced : AppState :=
  (handleUrlChange "http://server" (.ok none) 3 postStartup).1

/-- A pull performed while the `isInitialLoad` guard is up never schedules
a push, whatever the transport outcome. -/
theorem handleServerFetch_guard_up (url : String)
    (remote : Except Unit (Option (List FlightReport))) (now : Nat)
    (s : AppState) (h : s.isInitialLoad = true) :
    (handleServerFetch url remote now s).2 = false := by
  unfold handleServerFetch
  cases url.isEmpty <;> cases remote <;> simp [h]

/-- Claim C1 counterexample: reconfiguring the endpoint after startup (on a
reachable post-startup state) triggers a pull that replaces the Collection
with the fetched remote data, and that very Collection change schedules a
push — the `isInitialLoad` guard is already down, since `handleUrlChange`
never re-arms it.  The claim that no pull-caused change ever triggers a
push is therefore false. -/
theorem C1_reconfig_pull_schedules_push :
    (handleUrlChange "http://server" (.ok (some [sampleReport 0])) 7
      postStartup).2 = true := by decide

/-- Claim C1 (amended): only the startup pull is protected — a pull run by
the initialise effect, with the `isInitialLoad` guard still up, never
schedules a push, whatever is in storage and whatever the remote returns. -/
theorem C1_startup_pull_no_push (stored : Option StoredString)
    (storedUrl : Option String)
    (remote : Except Unit (Option (List FlightReport))) (now : Nat) :
    (startup stored storedUrl remote now).2 = false := by
  unfold startup
  match storedUrl with
  | none => rfl
  | some u =>
    by_cases hu : u.isEmpty
    · simp [hu]
    · simp only [Bool.not_eq_true] at hu
      simp only [hu, Bool.false_eq_true, if_false, if_neg]
      exact handleServerFetch_guard_up u remote now _ rfl

/-- Claim C2 counterexample: removing the last report leaves the
previously persisted collection in the Local Store (the auto-save effect
only writes when the collection is non-empty), so the persisted collection
no longer equals the in-memory one. -/
theorem C2_empty_remove_leaves_stale_store :
    loadCollection
        ((applyOp (.remove "0")
          ((applyOp (.add (sampleReport 0)) postStartup).1)).1).storage
      ≠ ((applyOp (.remove "0")
          ((applyOp (.add (sampleReport 0)) postStartup).1)).1).reports := by
  decide

/-- Claim C2 (amended): after every mutation that leaves the Collection
non-empty the Local Store holds exactly the in-memory Collection, and
`clearAll` erases the stored entry; but a `removeRecord` or `replaceAll`
that leaves the Collection empty does not touch the Local Store, whose
stale previous snapshot survives. -/
theorem C2_persistence_after_mutation (op : MutationOp) (s : AppState) :
    ((applyOp op s).1.reports ≠ [] →
      (applyOp op s).1.storage = some (.json (applyOp op s).1.reports))
    ∧ (op = .clear → (applyOp op s).1.storage = none)
    ∧ ((applyOp op s).1.reports = [] → op ≠ .clear →
      (applyOp op s).1.storage = s.storage) := by
  cases op with
  | add r =>
    refine ⟨fun _ => ?_, fun h => ?_, fun h _ => ?_⟩
    · simp [applyOp, applyAutoSave, saveCollection]
    · simp at h
    · exact absurd h (by simp [applyOp, applyAutoSave])
  | remove i =>
    refine ⟨fun h => ?_, fun h => ?_, fun h _ => ?_⟩
    · have hne : (s.reports.filter (fun r => r.id != i)) ≠ [] := by
        simpa [applyOp, applyAutoSave] using h
      simp [applyOp, applyAutoSave, saveCollection, hne]
    · simp at h
    · have hnil : (s.reports.filter (fun r => r.id != i)) = [] := by
        simpa [applyOp, applyAutoSave] using h
      simp [applyOp, applyAutoSave, saveCollection, hnil]
  | clear =>
    refine ⟨fun h => ?_, fun _ => ?_, fun _ h => absurd rfl h⟩
    · simp [applyOp, applyAutoSave] at h
    · simp [applyOp, applyAutoSave, saveCollection]
  | replace rs =>
    refine ⟨fun h => ?_, fun h => ?_, fun h _ => ?_⟩
    · have hne : rs ≠ [] := by simpa [applyOp, applyAutoSave] using h
      simp [applyOp, applyAutoSave, saveCollection, hne]
    · simp at h
    · have hnil : rs = [] := by simpa [applyOp, applyAutoSave] using h
      simp [applyOp, applyAutoSave, saveCollection, hnil]

/-- Witness for the amended C2 theorem at a concrete mutation. -/
theorem C2_persistence_after_mutation_witness :
    ((applyOp (.add (sampleReport 0)) postStartup).1).storage
      = some (.json ((applyOp (.add (sampleReport 0)) postStartup).1).reports) :=
  (C2_persistence_after_mutation (.add (sampleReport 0)) postStartup).1
    (by decide)

/-- Characterisation of `ingestBatch`: the final collection is the extracted
reports of exactly the succeeding documents, in reverse input order,
prepended ahead of the prior content; the counts tally successes and
failures over the whole batch. -/
theorem ingestBatch_spec {α : Type} (extract : α → Except String FlightReport)
    (files : List α) (prior : List FlightReport) :
    (ingestBatch extract files prior).1 =
      (files.filterMap (fun f => (extract f).toOption)).reverse ++ prior
    ∧ (ingestBatch extract files prior).2.1 =
      files.countP (fun f => ((extract f).toOption).isSome)
    ∧ (ingestBatch extract files prior).2.2 =
      files.countP (fun f => ((extract f).toOption).isNone) := by
  induction files generalizing prior with
  | nil => simp [ingestBatch]
  | cons f rest ih =>
    rcases hx : extract f with e | r
    · simpa [ingestBatch, hx, Except.toOption, List.countP_cons] using ih prior
    · have h := ih (r :: prior)
      simp only [ingestBatch, hx, Except.toOption, List.filterMap_cons,
        List.countP_cons, List.reverse_cons, Option.isSome_some,
        Option.isNone_some] at h ⊢
      refine ⟨?_, ?_, ?_⟩
      · rw [h.1]; simp
      · simp [h.2.1]
      · simp [h.2.2]

/-- Claim C3: in a batch where some documents fail extraction and some
succeed, `ingestBatch` adds exactly the records of the succeeding
documents (in reverse input order, ahead of the prior content), reports a
failure count equal to the number of failing documents, and an earlier
failure never prevents later documents from contributing — the result
ranges over the whole batch. -/
theorem C3_mixed_batch {α : Type} (extract : α → Except String FlightReport)
    (files : List α) (prior : List FlightReport)
    (hsucc : ∃ f ∈ files, ((extract f).toOption).isSome = true)
    (hfail : ∃ f ∈ files, ((extract f).toOption).isNone = true) :
    (ingestBatch extract files prior).1 =
      (files.filterMap (fun f => (extract f).toOption)).reverse ++ prior
    ∧ (ingestBatch extract files prior).2.2 =
      files.countP (fun f => ((extract f).toOption).isNone)
    ∧ (ingestBatch extract files prior).2.1 =
      files.countP (fun f => ((extract f).toOption).isSome) :=
  ⟨(ingestBatch_spec extract files prior).1,
   (ingestBatch_spec extract files prior).2.2,
   (ingestBatch_spec extract files prior).2.1⟩

/-- Witness for C3 on the two-document batch `[1, 2]` where document 1
fails and document 2 succeeds. -/
theorem C3_mixed_batch_witness :
    (ingestBatch sampleExtract [1, 2] []).1 =
      (([1, 2].filterMap (fun f => (sampleExtract f).toOption)).reverse ++ [])
    ∧ (ingestBatch sampleExtract [1, 2] []).2.2 =
      [1, 2].countP (fun f => ((sampleExtract f).toOption).isNone)
    ∧ (ingestBatch sampleExtract [1, 2] []).2.1 =
      [1, 2].countP (fun f => ((sampleExtract f).toOption).isSome) :=
  C3_mixed_batch sampleExtract [1, 2] [] (by decide) (by decide)

/-- Claim C4: on a three-document batch whose extractions all succeed, the
Extraction Adapter is invoked for `d1` before `d2` before `d3` (the
invocation log is exactly the input order), and the resulting collection
is `[r3, r2, r1]` prepended ahead of the prior content, with three
successes and no failures. -/
theorem C4_sequential_order {α : Type}
    (extract : α → Except String FlightReport) (d1 d2 d3 : α)
    (r1 r2 r3 : FlightReport) (prior : List FlightReport)
    (h1 : extract d1 = .ok r1) (h2 : extract d2 = .ok r2)
    (h3 : extract d3 = .ok r3) :
    ingestBatchLog extract [d1, d2, d3] prior =
      ((r3 :: r2 :: r1 :: prior, 3, 0), [d1, d2, d3]) := by
  simp [ingestBatchLog, h1, h2, h3]

/-- Witness for C4 on the all-succeeding batch `[0, 2, 4]`. -/
theorem C4_sequential_order_witness :
    ingestBatchLog sampleExtract [0, 2, 4] [] =
      ((sampleReport 4 :: sampleReport 2 :: sampleReport 0 :: [], 3, 0),
       [0, 2, 4]) :=
  C4_sequential_order sampleExtract 0 2 4 (sampleReport 0) (sampleReport 2)
    (sampleReport 4) [] rfl rfl rfl

/-- Claim C5: a successful pull of a non-empty remote collection `B`
wholly replaces the local collection — afterwards the collection is
exactly `B`, whatever was there before. -/
theorem C5_pull_replaces_local (url : String) (B : List FlightReport)
    (now : Nat) (s : AppState) (hurl : url.isEmpty = false) (hB : B ≠ []) :
    ((handleServerFetch url (.ok (some B)) now s).1).reports = B := by
  simp [handleServerFetch, hurl, hB]

/-- Witness for C5: pulling `[sampleReport 1]` onto a state already
holding `[sampleReport 0]`. -/
theorem C5_pull_replaces_local_witness :
    ((handleServerFetch "http://server" (.ok (some [sampleReport 1])) 7
      ((applyOp (.add (sampleReport 0)) postStartup).1)).1).reports
      = [sampleReport 1] :=
  C5_pull_replaces_local "http://server" [sampleReport 1] 7
    ((applyOp (.add (sampleReport 0)) postStartup).1) rfl (by decide)

/-- Claim C6: a pull whose remote fetch fails sets the sync status to
`error` and leaves the collection, the persisted collection and the last
successful sync timestamp all unchanged. -/
theorem C6_pull_failure_preserves_state (url : String) (now : Nat)
    (s : AppState) (hurl : url.isEmpty = false) :
    ((handleServerFetch url (.error ()) now s).1).syncStatus = .error
    ∧ ((handleServerFetch url (.error ()) now s).1).reports = s.reports
    ∧ ((handleServerFetch url (.error ()) now s).1).lastSyncTime =
      s.lastSyncTime
    ∧ ((handleServerFetch url (.error ()) now s).1).storage = s.storage := by
  simp [handleServerFetch, hurl]

/-- Witness for C6 on a previously synced concrete state. -/
theorem C6_pull_failure_preserves_state_witness :
    ((handleServerFetch "http://server" (.error ()) 9 sampleSynced).1).syncStatus
      = .error
    ∧ ((handleServerFetch "http://server" (.error ()) 9 sampleSynced).1).reports
      = sampleSynced.reports
    ∧ ((handleServerFetch "http://server" (.error ()) 9 sampleSynced).1).lastSyncTime
      = sampleSynced.lastSyncTime
    ∧ ((handleServerFetch "http://server" (.error ()) 9 sampleSynced).1).storage
      = sampleSynced.storage :=
  C6_pull_failure_preserves_state "http://server" 9 sampleSynced rfl

/-- Claim C7: with an endpoint configured and the startup guard down,
every collection mutation schedules a push, and the debounce timer
coalesces a burst of `N ≥ 1` mutations, each inside the quiet window of
its predecessor, into exactly one push, issued 1000 ms after the last
mutation of the burst (each new mutation having cancelled and restarted
the pending timer). -/
theorem C7_debounce_coalesces :
    (∀ (op : MutationOp) (s : AppState),
      s.serverUrl.isEmpty = false → s.isInitialLoad = false →
      (applyOp op s).2 = true)
    ∧ ∀ (ts : List Nat) (h : ts ≠ []), withinQuiet ts = true →
      debouncePushes ts = [ts.getLast h + 1000] := by
  constructor
  · intro op s h1 h2
    cases op <;> simp [applyOp, applyAutoSave, h1, h2]
  · intro ts
    induction ts with
    | nil => intro h; exact absurd rfl h
    | cons t1 rest ih =>
      intro h hq
      cases rest with
      | nil => simp [debouncePushes]
      | cons t2 rest2 =>
        have hq1 : t2 < t1 + 1000 := by
          simp only [withinQuiet, Bool.and_eq_true, decide_eq_true_eq] at hq
          exact hq.1
        have hq2 : withinQuiet (t2 :: rest2) = true := by
          simp only [withinQuiet, Bool.and_eq_true, decide_eq_true_eq] at hq ⊢
          exact hq.2
        have hne : (t2 :: rest2) ≠ [] := by simp
        calc debouncePushes (t1 :: t2 :: rest2)
            = debouncePushes (t2 :: rest2) := by
              simp only [debouncePushes, if_pos hq1]
          _ = [(t2 :: rest2).getLast hne + 1000] := ih hne hq2
          _ = [(t1 :: t2 :: rest2).getLast h + 1000] := by
              rw [List.getLast_cons hne]

/-- Witness for C7: one concrete mutation on a configured synced state
schedules a push, and the burst at times 0, 400, 900 yields exactly one
push at 1900. -/
theorem C7_debounce_coalesces_witness :
    (applyOp (.add (sampleReport 1)) sampleSynced).2 = true
    ∧ debouncePushes [0, 400, 900] =
      [[0, 400, 900].getLast (by decide) + 1000] :=
  ⟨C7_debounce_coalesces.1 (.add (sampleReport 1)) sampleSynced rfl rfl,
   C7_debounce_coalesces.2 [0, 400, 900] (by decide) (by decide)⟩

/-- Claim C8: saving any non-empty collection and loading it back returns
an equal collection, and loading from absent or corrupt storage returns
the empty collection (the parse failure is caught, never raised). -/
theorem C8_persistence_roundtrip (C : List FlightReport)
    (stored : Option StoredString) (hC : C ≠ []) :
    loadCollection (saveCollection C stored) = C
    ∧ loadCollection none = []
    ∧ ∀ raw : String, loadCollection (some (.corrupt raw)) = [] := by
  refine ⟨?_, rfl, fun _ => rfl⟩
  simp [saveCollection, loadCollection, jsonParse, hC]

/-- Witness for C8 at a concrete collection over corrupt prior storage. -/
theorem C8_persistence_roundtrip_witness :
    loadCollection (saveCollection [sampleReport 0] (some (.corrupt "x")))
      = [sampleReport 0]
    ∧ loadCollection none = []
    ∧ ∀ raw : String, loadCollection (some (.corrupt raw)) = [] :=
  C8_persistence_roundtrip [sampleReport 0] (some (.corrupt "x")) (by decide)

/-- Claim C9 counterexample: importing a backup whose array holds two
records with the same identifier replaces the collection verbatim — the
resulting collection violates identifier uniqueness, so the claim that no
sequence of public operations (including `replaceAll` via import) ever
produces duplicate identifiers is false. -/
theorem C9_import_duplicates :
    ¬ uniqueIds
      ((handleImportBackup (.json [sampleReport 0, sampleReport 0]) true
        postStartup).1).reports := by
  decide

/-- Claim C9 (amended): identifier uniqueness is preserved by every
mutation provided `addRecord` is given a record whose identifier is fresh
(the Extraction Adapter's contract) and `replaceAll` is given a collection
that itself has unique identifiers; `remove` and `clear` preserve it
unconditionally. -/
theorem C9_uniqueness_preserved (op : MutationOp) (s : AppState)
    (hs : uniqueIds s.reports)
    (hop : match op with
      | .add r => r.id ∉ s.reports.map FlightReport.id
      | .replace rs => uniqueIds rs
      | _ => True) :
    uniqueIds ((applyOp op s).1).reports := by
  cases op with
  | add r =>
    have : ((applyOp (.add r) s).1).reports = r :: s.reports := rfl
    rw [uniqueIds, this, List.map_cons, List.nodup_cons]
    exact ⟨hop, hs⟩
  | remove i =>
    have : ((applyOp (.remove i) s).1).reports =
        s.reports.filter (fun r => r.id != i) := rfl
    rw [uniqueIds, this]
    exact hs.sublist ((List.filter_sublist _).map _)
  | clear =>
    simp [applyOp, applyAutoSave, uniqueIds]
  | replace rs =>
    exact hop

/-- Witness for the amended C9 at a concrete fresh-identifier `add` on a
singleton collection. -/
theorem C9_uniqueness_preserved_witness :
    uniqueIds
      ((applyOp (.add (sampleReport 1))
        ((applyOp (.add (sampleReport 0)) postStartup).1)).1).reports :=
  C9_uniqueness_preserved (.add (sampleReport 1))
    ((applyOp (.add (sampleReport 0)) postStartup).1) (by decide) (by decide)

/-- Claim C10: a pull from a configured endpoint whose remote body is
absent or an empty array leaves the collection and the persisted
collection unchanged, yet still sets the status to `synced` and stamps the
sync time with the completion instant. -/
theorem C10_empty_pull_marks_synced (url : String) (now : Nat)
    (s : AppState) (remote : Except Unit (Option (List FlightReport)))
    (hurl : url.isEmpty = false)
    (hremote : remote = .ok none ∨ remote = .ok (some [])) :
    ((handleServerFetch url remote now s).1).reports = s.reports
    ∧ ((handleServerFetch url remote now s).1).storage = s.storage
    ∧ ((handleServerFetch url remote now s).1).syncStatus = .synced
    ∧ ((handleServerFetch url remote now s).1).lastSyncTime = some now := by
  rcases hremote with h | h <;> subst h <;> simp [handleServerFetch, hurl]

/-- Witness for C10: an absent remote body pulled onto a state holding one
report. -/
theorem C10_empty_pull_marks_synced_witness :
    ((handleServerFetch "http://server" (.ok none) 11
      ((applyOp (.add (sampleReport 0)) postStartup).1)).1).reports
      = ((applyOp (.add (sampleReport 0)) postStartup).1).reports
    ∧ ((handleServerFetch "http://server" (.ok none) 11
      ((applyOp (.add (sampleReport 0)) postStartup).1)).1).storage
      = ((applyOp (.add (sampleReport 0)) postStartup).1).storage
    ∧ ((handleServerFetch "http://server" (.ok none) 11
      ((applyOp (.add (sampleReport 0)) postStartup).1)).1).syncStatus
      = .synced
    ∧ ((handleServerFetch "http://server" (.ok none) 11
      ((applyOp (.add (sampleReport 0)) postStartup).1)).1).lastSyncTime
      = some 11 :=
  C10_empty_pull_marks_synced "http://server" 11
    ((applyOp (.add (sampleReport 0)) postStartup).1) (.ok none) rfl
    (Or.inl rfl)
